import Mathlib

/-!
Verification of the authorization core of the multi-tenant task manager.

The definitions below are a shallow embedding of the TypeScript sources:
stores (TypeORM repositories) become lists of rows, repository lookups become
List.find?, thrown Nest exceptions become an error value of type HttpError,
and each service or controller method becomes a pure function over the store
state it touches.  File references are given on each definition.
-/

deriving instance DecidableEq for Except

namespace TaskManager

/-- Role enum of libs/data (OrganizationRole in role.enum.ts, referenced from
the entities and controllers): exactly three members. -/
inductive OrganizationRole where
  | OWNER
  | ADMIN
  | VIEWER
deriving DecidableEq, Repr, Fintype

/-- Invitation status enum (invitation-status.enum.ts, referenced from the
Invitation entity and InvitationsService). -/
inductive InvitationStatus where
  | PENDING
  | ACCEPTED
  | EXPIRED
  | REVOKED
deriving DecidableEq, Repr, Fintype

/-- Task status enum (task-status.enum.ts; members as used across the repo,
default TODO in the Task entity). -/
inductive TaskStatus where
  | TODO
  | IN_PROGRESS
  | DONE
deriving DecidableEq, Repr, Fintype

/-- Task priority enum (task-priority.enum.ts; default MEDIUM in the entity). -/
inductive TaskPriority where
  | LOW
  | MEDIUM
  | HIGH
  | URGENT
deriving DecidableEq, Repr, Fintype

/-- Task category enum (as used in the task DTOs; default GENERAL). -/
inductive TaskCategory where
  | GENERAL
  | WORK
  | PERSONAL
  | URGENT
deriving DecidableEq, Repr, Fintype

/-- HTTP-level error outcomes of the Nest exception classes thrown by the
embedded code: UnauthorizedException, ForbiddenException, NotFoundException,
BadRequestException, ConflictException, plus Internal for an infrastructure
failure of a store write (surfaced as a 5xx). -/
inductive HttpError where
  | Unauthorized
  | Forbidden
  | NotFound
  | BadRequest
  | Conflict
  | Internal
deriving DecidableEq, Repr, Fintype

/-- Membership row: entity UserOrganization (user-organization.entity.ts),
table user_organizations, columns id, user_id, organization_id, role.
The entity carries a unique constraint uq_user_org on (userId, organizationId). -/
structure UserOrganization where
  id : Nat
  userId : Nat
  organizationId : Nat
  role : OrganizationRole
deriving DecidableEq, Repr

/-- Organization row (organization.entity.ts): id, name, optional parentId. -/
structure Organization where
  id : Nat
  name : String
  parentId : Option Nat
deriving DecidableEq, Repr

/-- User row, reduced to the columns the embedded flows read. -/
structure User where
  id : Nat
  email : String
deriving DecidableEq, Repr

/-- Membership lookup: userOrgRepository.findOne with where
(userId, organizationId), as performed by the services and by the
membership-resolution step of the guard pipeline. -/
def membershipFind (ms : List UserOrganization) (userId organizationId : Nat) :
    Option UserOrganization :=
  ms.find? (fun m => m.userId == userId && m.organizationId == organizationId)

/-- Modelled from the spec: the role rank table of the missing file
libs/auth/src/lib/guards/org-roles.guard.ts (the OrgRolesGuard source is not
among the provided files; only its callers, tests and the repo documentation
reference it).  Spec section 4.1 and the repo docs fix OWNER=3, ADMIN=2,
VIEWER=1. -/
def rank : OrganizationRole → Nat
  | .OWNER => 3
  | .ADMIN => 2
  | .VIEWER => 1

/-- Modelled from the spec: satisfies(callerRole, requiredRole) of the missing
OrgRolesGuard, defined in spec section 4.1 as rank(callerRole) >= rank(requiredRole). -/
def satisfies (callerRole requiredRole : OrganizationRole) : Bool :=
  rank requiredRole ≤ rank callerRole

/-- Route role requirement attached at registration time: either a minimum
role (OrgRoles with one argument, e.g. the tasks routes) or an explicit set
of acceptable roles (OrgRoles with several arguments, e.g. the invitations
routes). -/
inductive RoleRequirement where
  | Minimum (r : OrganizationRole)
  | ExactSet (rs : List OrganizationRole)
deriving DecidableEq, Repr

/-- Modelled from the spec: the decision step of the missing OrgRolesGuard
(spec section 4.4 states 3 and 4).  A missing membership is rejected with
Forbidden; an existing membership is compared against the route requirement,
by rank for a minimum role and by set membership for an explicit set. -/
def orgRolesCheck (req : RoleRequirement) (membership : Option OrganizationRole) :
    Except HttpError OrganizationRole :=
  match membership with
  | none => .error .Forbidden
  | some r =>
    match req with
    | .Minimum m => if satisfies r m then .ok r else .error .Forbidden
    | .ExactSet rs => if rs.contains r then .ok r else .error .Forbidden

/-- Task row (task.entity.ts): columns read by the embedded flows, with
deletedAt as the soft-delete marker (DeleteDateColumn). -/
structure Task where
  id : Nat
  title : String
  description : Option String
  organizationId : Nat
  assigneeId : Option Nat
  status : TaskStatus
  priority : TaskPriority
  category : TaskCategory
  createdAt : Nat
  deletedAt : Option Nat
deriving DecidableEq, Repr

/-- TasksService.findByIdWithDeleted (tasks.service.ts): findOne by id with
withDeleted true, so the soft-delete filter is not applied. -/
def findByIdWithDeleted (tasks : List Task) (id : Nat) : Option Task :=
  tasks.find? (fun t => t.id == id)

/-- TasksService.findById (tasks.service.ts): findOne by id; TypeORM applies
the soft-delete filter by default, so deleted rows are not returned. -/
def findById (tasks : List Task) (id : Nat) : Option Task :=
  tasks.find? (fun t => t.id == id && t.deletedAt == none)

/-- Repository save of an already-loaded task row: replaces the row with the
same id. -/
def taskSave (tasks : List Task) (t : Task) : List Task :=
  tasks.map (fun u => if u.id == t.id then t else u)

/-- UpdateTaskDto (dto/update-task.dto.ts): all fields optional; a field that
is none models a field absent or undefined in the JSON payload.  The
organizationId field is the one injected by TaskOrgGuard. -/
structure UpdateTaskDto where
  title : Option String := none
  description : Option String := none
  assigneeId : Option Nat := none
  status : Option TaskStatus := none
  priority : Option TaskPriority := none
  category : Option TaskCategory := none
  organizationId : Option Nat := none
deriving DecidableEq, Repr

/-- Field application of TasksService.update (tasks.service.ts, the six
guarded assignments): each of title, description, assigneeId, status,
priority, category is overwritten exactly when the dto carries a defined
value for it; no other field of the row is assigned. -/
def applyUpdate (t : Task) (dto : UpdateTaskDto) : Task :=
  { t with
    title := dto.title.getD t.title
    description := match dto.description with
      | some v => some v
      | none => t.description
    assigneeId := match dto.assigneeId with
      | some v => some v
      | none => t.assigneeId
    status := dto.status.getD t.status
    priority := dto.priority.getD t.priority
    category := dto.category.getD t.category }

/-- TasksService.update (tasks.service.ts): look the task up (soft-deleted
rows excluded), NotFound when absent, otherwise apply the defined dto fields
and save. -/
def tasksServiceUpdate (tasks : List Task) (id : Nat) (dto : UpdateTaskDto) :
    Except HttpError (List Task × Task) :=
  match findById tasks id with
  | none => .error .NotFound
  | some t =>
    let t2 := applyUpdate t dto
    .ok (taskSave tasks t2, t2)

/-- TasksService.delete (tasks.service.ts): look up (soft-deleted excluded),
NotFound when absent, otherwise softRemove, which stamps deletedAt. -/
def tasksServiceDelete (tasks : List Task) (id : Nat) (now : Nat) :
    Except HttpError (List Task) :=
  match findById tasks id with
  | none => .error .NotFound
  | some t => .ok (taskSave tasks { t with deletedAt := some now })

/-- TasksService.restoreTask (tasks.service.ts): look up including deleted,
NotFound when absent, NotFound when not actually deleted, otherwise clear the
soft-delete stamp. -/
def tasksServiceRestore (tasks : List Task) (id : Nat) :
    Except HttpError (List Task) :=
  match findByIdWithDeleted tasks id with
  | none => .error .NotFound
  | some t =>
    match t.deletedAt with
    | none => .error .NotFound
    | some _ => .ok (taskSave tasks { t with deletedAt := none })

/-- List of field names present with a defined value in an UpdateTaskDto
payload, in declaration order: the embedding of Object.keys(updateTaskDto)
restricted to defined values, as computed in TasksController.update. -/
def updateDtoKeys (dto : UpdateTaskDto) : List String :=
  (if dto.title.isSome then ["title"] else []) ++
  (if dto.description.isSome then ["description"] else []) ++
  (if dto.assigneeId.isSome then ["assigneeId"] else []) ++
  (if dto.status.isSome then ["status"] else []) ++
  (if dto.priority.isSome then ["priority"] else []) ++
  (if dto.category.isSome then ["category"] else []) ++
  (if dto.organizationId.isSome then ["organizationId"] else [])

/-- The updateKeys computation of TasksController.update: defined fields
minus the guard-injected system key organizationId. -/
def updateKeysNonSystem (dto : UpdateTaskDto) : List String :=
  let systemKeys := ["organizationId"]
  (updateDtoKeys dto).filter (fun k => !systemKeys.contains k)

/-- The viewer rejection test of TasksController.update:
updateKeys.some((k) => !allowedKeys.includes(k)) with allowedKeys = [status]. -/
def viewerDisallowed (dto : UpdateTaskDto) : Bool :=
  let allowedKeys := ["status"]
  (updateKeysNonSystem dto).any (fun k => !allowedKeys.contains k)

/-- TasksController.update (tasks.controller.ts): when the resolved role is
VIEWER, reject with Forbidden if any defined non-system field is outside the
allowed set, before the service is invoked; otherwise delegate to
TasksService.update. -/
def tasksControllerUpdate (userOrgRole : Option OrganizationRole) (id : Nat)
    (dto : UpdateTaskDto) (tasks : List Task) : Except HttpError (List Task × Task) :=
  if userOrgRole = some .VIEWER then
    if viewerDisallowed dto then .error .Forbidden
    else tasksServiceUpdate tasks id dto
  else tasksServiceUpdate tasks id dto

/-- TaskOrgGuard.canActivate (guards/task-org.guard.ts): routes without an id
param pass through; otherwise the task is looked up including soft-deleted
rows, a missing task is NotFound, and a found task has its stored
organizationId written over request.body.organizationId, the request also
carrying the resolved task. -/
def taskOrgGuard (tasks : List Task) (paramsId : Option Nat) (dto : UpdateTaskDto) :
    Except HttpError (UpdateTaskDto × Option Task) :=
  match paramsId with
  | none => .ok (dto, none)
  | some taskId =>
    match findByIdWithDeleted tasks taskId with
    | none => .error .NotFound
    | some task => .ok ({ dto with organizationId := some task.organizationId }, some task)

/-- Membership resolution feeding the role check: the role of the caller in
the given organization, or none when no membership row exists. -/
def resolveRole (ms : List UserOrganization) (userId organizationId : Nat) :
    Option OrganizationRole :=
  (membershipFind ms userId organizationId).map (fun m => m.role)

/-- The PUT /tasks/:id pipeline (tasks.controller.ts): JwtAuthGuard has
authenticated callerId, then TaskOrgGuard, then the OrgRolesGuard check at
minimum role VIEWER against the organization id carried by the body (which
TaskOrgGuard has just overwritten), then the controller handler.  The
extraction of the body organization id and the Forbidden on an undeterminable
organization follow the spec model of the missing guard source. -/
def updateRoutePipeline (tasks : List Task) (ms : List UserOrganization)
    (callerId taskId : Nat) (dto : UpdateTaskDto) : Except HttpError (List Task × Task) :=
  match taskOrgGuard tasks (some taskId) dto with
  | .error e => .error e
  | .ok (dto2, _task) =>
    match dto2.organizationId with
    | none => .error .Forbidden
    | some orgId =>
      match orgRolesCheck (.Minimum .VIEWER) (resolveRole ms callerId orgId) with
      | .error e => .error e
      | .ok role => tasksControllerUpdate (some role) taskId dto2 tasks

/-- The DELETE /tasks/:id pipeline (tasks.controller.ts): same guard chain at
minimum role ADMIN, then TasksService.delete. -/
def deleteRoutePipeline (tasks : List Task) (ms : List UserOrganization)
    (callerId taskId : Nat) (dto : UpdateTaskDto) (now : Nat) :
    Except HttpError (List Task) :=
  match taskOrgGuard tasks (some taskId) dto with
  | .error e => .error e
  | .ok (dto2, _task) =>
    match dto2.organizationId with
    | none => .error .Forbidden
    | some orgId =>
      match orgRolesCheck (.Minimum .ADMIN) (resolveRole ms callerId orgId) with
      | .error e => .error e
      | .ok _ => tasksServiceDelete tasks taskId now

/-- The PATCH /tasks/:id/restore pipeline (tasks.controller.ts): same guard
chain at minimum role ADMIN, then TasksService.restoreTask. -/
def restoreRoutePipeline (tasks : List Task) (ms : List UserOrganization)
    (callerId taskId : Nat) (dto : UpdateTaskDto) :
    Except HttpError (List Task) :=
  match taskOrgGuard tasks (some taskId) dto with
  | .error e => .error e
  | .ok (dto2, _task) =>
    match dto2.organizationId with
    | none => .error .Forbidden
    | some orgId =>
      match orgRolesCheck (.Minimum .ADMIN) (resolveRole ms callerId orgId) with
      | .error e => .error e
      | .ok _ => tasksServiceRestore tasks taskId

/-- Invitation row (invitation.entity.ts): the columns the embedded flows
read; status and role carry the entity defaults PENDING and VIEWER when not
set at creation.  Expiry instants are modelled in days. -/
structure Invitation where
  id : Nat
  email : String
  token : String
  role : OrganizationRole
  status : InvitationStatus
  organizationId : Nat
  invitedById : Nat
  expiresAt : Nat
deriving DecidableEq, Repr

/-- CreateInvitationDto (dto/create-invitation.dto.ts): email, role and
target organization id. -/
structure CreateInvitationDto where
  email : String
  role : OrganizationRole
  organizationId : Nat
deriving DecidableEq, Repr

/-- InvitationsService.createInvitation (invitations.service.ts): the checks
in source order — inviter role must be OWNER or ADMIN, an ADMIN may not
request OWNER, the organization must exist, an already-member invitee and an
already-pending invitation are conflicts — then an invitation row is created
with the requested role and, by the entity default, status PENDING, expiring
seven days out.  The freshly generated token and new row id are inputs. -/
def createInvitation (dto : CreateInvitationDto) (inviterId : Nat)
    (inviterRole : OrganizationRole) (orgs : List Organization)
    (users : List User) (ms : List UserOrganization)
    (invitations : List Invitation) (newId : Nat) (token : String) (now : Nat) :
    Except HttpError Invitation :=
  if !([OrganizationRole.OWNER, OrganizationRole.ADMIN].contains inviterRole) then
    .error .Forbidden
  else if inviterRole = .ADMIN && dto.role = .OWNER then
    .error .Forbidden
  else
    match orgs.find? (fun o => o.id == dto.organizationId) with
    | none => .error .NotFound
    | some _ =>
      let existingUser := users.find? (fun u => u.email == dto.email)
      if (match existingUser with
          | some u => (membershipFind ms u.id dto.organizationId).isSome
          | none => false) then
        .error .Conflict
      else if (invitations.find? (fun i =>
          i.email == dto.email && i.organizationId == dto.organizationId &&
          i.status == InvitationStatus.PENDING)).isSome then
        .error .Conflict
      else
        .ok { id := newId, email := dto.email, token := token, role := dto.role,
              status := .PENDING, organizationId := dto.organizationId,
              invitedById := inviterId, expiresAt := now + 7 }

/-- Embedding of Array.prototype.includes applied to a possibly undefined
role value: the userRole argument of the revoke and resend service methods is
populated from request.userOrgRole, which is undefined on a route where
OrgRolesGuard did not run, and includes(undefined) is false. -/
def roleIn (rs : List OrganizationRole) (r : Option OrganizationRole) : Bool :=
  match r with
  | some x => rs.contains x
  | none => false

/-- InvitationsService.revokeInvitation (invitations.service.ts): lookup,
NotFound when absent, BadRequest when not pending, Forbidden when the caller
role is not OWNER or ADMIN, otherwise the row is saved with status REVOKED.
The userId argument is accepted and unused, as in the source. -/
def revokeInvitation (invitations : List Invitation) (invitationId userId : Nat)
    (userRole : Option OrganizationRole) : Except HttpError (List Invitation) :=
  match invitations.find? (fun i => i.id == invitationId) with
  | none => .error .NotFound
  | some inv =>
    if inv.status ≠ .PENDING then .error .BadRequest
    else if !(roleIn [.OWNER, .ADMIN] userRole) then .error .Forbidden
    else .ok (invitations.map (fun i =>
      if i.id == invitationId then { i with status := .REVOKED } else i))

/-- InvitationsService.resendInvitation (invitations.service.ts): lookup,
NotFound when absent, BadRequest when already accepted, Forbidden when the
caller role is not OWNER or ADMIN, otherwise a new token is stored and the
row is saved with status PENDING and a fresh seven-day expiry. -/
def resendInvitation (invitations : List Invitation) (invitationId userId : Nat)
    (userRole : Option OrganizationRole) (newToken : String) (now : Nat) :
    Except HttpError (List Invitation) :=
  match invitations.find? (fun i => i.id == invitationId) with
  | none => .error .NotFound
  | some inv =>
    if inv.status = .ACCEPTED then .error .BadRequest
    else if !(roleIn [.OWNER, .ADMIN] userRole) then .error .Forbidden
    else .ok (invitations.map (fun i =>
      if i.id == invitationId then
        { i with token := newToken, status := .PENDING, expiresAt := now + 7 }
      else i))

/-- The DELETE /invitations/:id route (invitations.controller.ts): the only
guard applied is JwtAuthGuard, so request.userOrgRole is never populated, and
the handler forwards it — undefined — as the userRole argument of the
service.  The membership store is an argument to make plain that the outcome
does not depend on the caller's actual role. -/
def revokeInvitationRoute (invitations : List Invitation)
    (ms : List UserOrganization) (callerId invitationId : Nat) :
    Except HttpError (List Invitation) :=
  revokeInvitation invitations invitationId callerId none

/-- The POST /invitations/:id/resend route (invitations.controller.ts): the
only guard applied is JwtAuthGuard, so request.userOrgRole is never populated
and is forwarded undefined to the service. -/
def resendInvitationRoute (invitations : List Invitation)
    (ms : List UserOrganization) (callerId invitationId : Nat)
    (newToken : String) (now : Nat) : Except HttpError (List Invitation) :=
  resendInvitation invitations invitationId callerId none newToken now

/-- Joint store of organization and membership rows, the state touched by
OrganizationsService.create. -/
structure OrgState where
  orgs : List Organization
  memberships : List UserOrganization
deriving DecidableEq, Repr

/-- Membership-row save under the uq_user_org unique constraint of the
UserOrganization entity: the insert is rejected (none) when a row with the
same (userId, organizationId) pair already exists. -/
def userOrgInsert (ms : List UserOrganization) (row : UserOrganization) :
    Option (List UserOrganization) :=
  if ms.any (fun m => m.userId == row.userId && m.organizationId == row.organizationId) then
    none
  else
    some (ms ++ [row])

/-- The two sequential saves at the end of OrganizationsService.create
(organizations.service.ts): the organization row is saved first,
unconditionally; then the creator's OWNER membership row is saved.  The
memSaveOk flag injects an infrastructure failure of that second save: the
source wraps the two awaits in no transaction, so when the membership save
fails the organization save is not rolled back.  A unique-constraint
violation on the membership row likewise aborts only the second save. -/
def orgsCreateSave (st : OrgState) (name : String) (parentId : Option Nat)
    (userId newOrgId newMemId : Nat) (memSaveOk : Bool) :
    OrgState × Except HttpError Organization :=
  let org : Organization := { id := newOrgId, name := name, parentId := parentId }
  let st1 : OrgState := { st with orgs := st.orgs ++ [org] }
  if memSaveOk then
    match userOrgInsert st1.memberships
        { id := newMemId, userId := userId, organizationId := newOrgId,
          role := .OWNER } with
    | some ms2 => ({ st1 with memberships := ms2 }, .ok org)
    | none => (st1, .error .Conflict)
  else (st1, .error .Internal)

/-- OrganizationsService.create (organizations.service.ts): when a parentId
is supplied, the parent must exist (NotFound), the creator must be a member
of it (Forbidden) with role OWNER or ADMIN (Forbidden); then the organization
and the creator's OWNER membership are saved in sequence. -/
def orgsCreate (st : OrgState) (name : String) (dtoParentId : Option Nat)
    (userId newOrgId newMemId : Nat) (memSaveOk : Bool) :
    OrgState × Except HttpError Organization :=
  match dtoParentId with
  | some pid =>
    match st.orgs.find? (fun o => o.id == pid) with
    | none => (st, .error .NotFound)
    | some _ =>
      match membershipFind st.memberships userId pid with
      | none => (st, .error .Forbidden)
      | some m =>
        if !([OrganizationRole.OWNER, OrganizationRole.ADMIN].contains m.role) then
          (st, .error .Forbidden)
        else orgsCreateSave st name (some pid) userId newOrgId newMemId memSaveOk
  | none => orgsCreateSave st name none userId newOrgId newMemId memSaveOk

/-- OrganizationsService.findOne (organizations.service.ts): the membership
row for (userId, id) is looked up with its organization relation; a missing
membership is rejected with NotFound — not Forbidden — and otherwise the
joined organization row is returned (the join modelled as a lookup in the
organization store). -/
def orgFindOne (ms : List UserOrganization) (orgs : List Organization)
    (id userId : Nat) : Except HttpError (Option Organization) :=
  match membershipFind ms userId id with
  | none => .error .NotFound
  | some _ => .ok (orgs.find? (fun o => o.id == id))

/-- OrganizationsService.update (organizations.service.ts): a missing
membership is rejected with NotFound; a member whose role is neither OWNER
nor ADMIN is rejected with Forbidden; otherwise the name is overwritten when
defined and the row saved. -/
def orgUpdate (ms : List UserOrganization) (orgs : List Organization)
    (id : Nat) (dtoName : Option String) (userId : Nat) :
    Except HttpError (List Organization) :=
  match membershipFind ms userId id with
  | none => .error .NotFound
  | some m =>
    if !([OrganizationRole.OWNER, OrganizationRole.ADMIN].contains m.role) then
      .error .Forbidden
    else
      .ok (orgs.map (fun o =>
        if o.id == id then
          match dtoName with
          | some n => { o with name := n }
          | none => o
        else o))

/-- Store state touched by InvitationsService.acceptInvitation. -/
structure AcceptState where
  users : List User
  memberships : List UserOrganization
  invitations : List Invitation
deriving DecidableEq, Repr

/-- The invitee-resolution step of acceptInvitation: the existing user row
with the invitation email, or a freshly created one. -/
def acceptResolveUser (st : AcceptState) (inv : Invitation) (newUserId : Nat) : User :=
  match st.users.find? (fun u => u.email == inv.email) with
  | some u => u
  | none => { id := newUserId, email := inv.email }

/-- The membership-creation step of acceptInvitation: the row is inserted
only when the (user, organization) pair has no row yet; an existing pair is
left alone, making a repeated acceptance a no-op on memberships. -/
def acceptMembershipStep (ms : List UserOrganization) (userId orgId newMemId : Nat)
    (role : OrganizationRole) : List UserOrganization :=
  match membershipFind ms userId orgId with
  | some _ => ms
  | none =>
    ms ++ [{ id := newMemId, userId := userId,
             organizationId := orgId, role := role }]

/-- InvitationsService.acceptInvitation (invitations.service.ts), reduced to
the store transitions: lookup by token (NotFound), non-pending is BadRequest,
an expired pending invitation is stamped EXPIRED and rejected BadRequest;
otherwise the invitee user row is created unless one with the invitation
email exists, the membership step runs, and the invitation is marked
ACCEPTED.  The new user and membership row ids are inputs. -/
def acceptInvitation (st : AcceptState) (token : String) (now : Nat)
    (newUserId newMemId : Nat) : AcceptState × Except HttpError OrganizationRole :=
  match st.invitations.find? (fun i => i.token == token) with
  | none => (st, .error .NotFound)
  | some inv =>
    if inv.status ≠ .PENDING then (st, .error .BadRequest)
    else if inv.expiresAt < now then
      ({ st with invitations := st.invitations.map (fun i =>
          if i.id == inv.id then { i with status := .EXPIRED } else i) },
        .error .BadRequest)
    else
      let user : User := acceptResolveUser st inv newUserId
      let users1 : List User :=
        match st.users.find? (fun u => u.email == inv.email) with
        | some _ => st.users
        | none => st.users ++ [user]
      ({ users := users1,
          memberships := acceptMembershipStep st.memberships user.id
            inv.organizationId newMemId inv.role,
          invitations := st.invitations.map (fun i =>
            if i.id == inv.id then { i with status := .ACCEPTED } else i) },
        .ok inv.role)

/-- Uniqueness of the (userId, organizationId) pair across a membership
store: the invariant backed by the uq_user_org constraint. -/
def pairUnique (ms : List UserOrganization) : Prop :=
  ms.Pairwise (fun a b => ¬(a.userId = b.userId ∧ a.organizationId = b.organizationId))

/-- Concrete fixture: a soft-deleted task of organization 9, used to evaluate
the guard pipelines at a specific input. -/
def sampleDeletedTask : Task :=
  { id := 5, title := "t", description := none, organizationId := 9,
    assigneeId := none, status := .TODO, priority := .MEDIUM,
    category := .GENERAL, createdAt := 0, deletedAt := some 3 }

/-- Concrete fixture: user 1 holds an OWNER membership in organization 4
(and none anywhere else). -/
def sampleMembershipOrg4 : UserOrganization :=
  { id := 0, userId := 1, organizationId := 4, role := .OWNER }

/-- Concrete fixture: a live (not soft-deleted) task of organization 9. -/
def sampleLiveTask : Task :=
  { id := 5, title := "t", description := none, organizationId := 9,
    assigneeId := none, status := .TODO, priority := .MEDIUM,
    category := .GENERAL, createdAt := 0, deletedAt := none }

/-- Concrete fixture: user 2 holds a VIEWER membership in organization 4. -/
def sampleViewerMembership : UserOrganization :=
  { id := 1, userId := 2, organizationId := 4, role := .VIEWER }

/-- Concrete fixture: organization 4. -/
def sampleOrg : Organization :=
  { id := 4, name := "Org", parentId := none }

/-- Concrete fixture: a pending invitation into organization 4. -/
def samplePendingInvitation : Invitation :=
  { id := 2, email := "a@test.com", token := "tok", role := .VIEWER,
    status := .PENDING, organizationId := 4, invitedById := 1, expiresAt := 30 }

/-- Concrete fixture: a revoked invitation into organization 4. -/
def sampleRevokedInvitation : Invitation :=
  { id := 3, email := "b@test.com", token := "tok2", role := .VIEWER,
    status := .REVOKED, organizationId := 4, invitedById := 1, expiresAt := 30 }

/-! Theorems.  Each claim of the specification is settled by one theorem
below; helper lemmas carry no claim name. -/

/-- Claim C1: satisfies(callerRole, requiredRole) equals
rank(callerRole) >= rank(requiredRole) with ranks OWNER=3, ADMIN=2, VIEWER=1,
for every pair of roles; a route declaring minimum role ADMIN admits exactly
the callers whose rank reaches the rank of ADMIN, so OWNER and ADMIN are
admitted and VIEWER is rejected with Forbidden. -/
theorem C1_role_hierarchy_satisfies :
    (∀ r1 r2 : OrganizationRole, satisfies r1 r2 = decide (rank r2 ≤ rank r1)) ∧
    (∀ caller : OrganizationRole,
      orgRolesCheck (.Minimum .ADMIN) (some caller) = .ok caller ↔
        rank .ADMIN ≤ rank caller) ∧
    orgRolesCheck (.Minimum .ADMIN) (some .OWNER) = .ok .OWNER ∧
    orgRolesCheck (.Minimum .ADMIN) (some .ADMIN) = .ok .ADMIN ∧
    orgRolesCheck (.Minimum .ADMIN) (some .VIEWER) = .error .Forbidden := by
  refine ⟨?_, ?_, rfl, rfl, rfl⟩
  · decide
  · intro caller
    cases caller <;> simp [orgRolesCheck, satisfies, rank]

/-- Claim C2: on the three task routes identified by a task id, the guard
looks the task up including soft-deleted rows; when no task exists each
pipeline fails with NotFound before any role check (for every membership
store alike); when a task exists the guard overwrites the body organization
id with the stored one and hands the resolved task on, so a caller without a
membership in the owning organization is rejected with Forbidden, and the
pipeline outcome is independent of the client-supplied body organization id. -/
theorem C2_resource_guard (tasks : List Task) (ms : List UserOrganization)
    (callerId taskId : Nat) (dto : UpdateTaskDto) (now : Nat) :
    (findByIdWithDeleted tasks taskId = none →
      updateRoutePipeline tasks ms callerId taskId dto = .error .NotFound ∧
      deleteRoutePipeline tasks ms callerId taskId dto now = .error .NotFound ∧
      restoreRoutePipeline tasks ms callerId taskId dto = .error .NotFound) ∧
    (∀ t, findByIdWithDeleted tasks taskId = some t →
      taskOrgGuard tasks (some taskId) dto =
        .ok ({ dto with organizationId := some t.organizationId }, some t) ∧
      (resolveRole ms callerId t.organizationId = none →
        updateRoutePipeline tasks ms callerId taskId dto = .error .Forbidden)) ∧
    (∀ x, updateRoutePipeline tasks ms callerId taskId { dto with organizationId := x } =
          updateRoutePipeline tasks ms callerId taskId dto) := by
  refine ⟨?_, ?_, ?_⟩
  · intro h
    refine ⟨?_, ?_, ?_⟩ <;>
      simp [updateRoutePipeline, deleteRoutePipeline, restoreRoutePipeline,
        taskOrgGuard, h]
  · intro t ht
    refine ⟨by simp [taskOrgGuard, ht], ?_⟩
    intro hr
    simp [updateRoutePipeline, taskOrgGuard, ht, hr, orgRolesCheck]
  · intro x
    cases ht : findByIdWithDeleted tasks taskId <;>
      simp [updateRoutePipeline, taskOrgGuard, ht]

/-- Witness for C2 at concrete inputs: an empty task store gives NotFound on
the update pipeline, and a store holding a soft-deleted task of organization
9 has the guard overwrite a client-claimed organization 4 with 9 — after
which a caller with no membership in organization 9 is rejected Forbidden. -/
theorem C2_resource_guard_witness :
    updateRoutePipeline [] [] 1 5 {} = .error .NotFound ∧
    taskOrgGuard [sampleDeletedTask] (some 5) { organizationId := some 4 } =
      .ok ({ organizationId := some 9 }, some sampleDeletedTask) ∧
    updateRoutePipeline [sampleDeletedTask] [sampleMembershipOrg4]
      1 5 { organizationId := some 4 } = .error .Forbidden := by
  have h := C2_resource_guard [sampleDeletedTask] [sampleMembershipOrg4]
    1 5 { organizationId := some 4 } 0
  refine ⟨((C2_resource_guard [] [] 1 5 {} 0).1 (by decide)).1, ?_, ?_⟩
  · exact ((h.2.1 sampleDeletedTask (by decide)).1).trans (by decide)
  · exact (h.2.1 sampleDeletedTask (by decide)).2 (by decide)

/-- Helper: the viewer rejection test is false exactly when every defined
non-system field of the payload is the status field. -/
theorem viewerDisallowed_eq_false (dto : UpdateTaskDto) :
    viewerDisallowed dto = false ↔ ∀ k ∈ updateKeysNonSystem dto, k = "status" := by
  simp [viewerDisallowed, List.any_eq_true]

/-- Helper: the viewer rejection test is true exactly when some defined
non-system field of the payload is not the status field. -/
theorem viewerDisallowed_eq_true (dto : UpdateTaskDto) :
    viewerDisallowed dto = true ↔ ∃ k ∈ updateKeysNonSystem dto, k ≠ "status" := by
  simp [viewerDisallowed, List.any_eq_true]

/-- Claim C3: on a task update, with F the set of defined payload fields
minus the guard-injected organizationId, a VIEWER caller proceeds to the
service exactly when F is contained in the status field alone, is rejected
with Forbidden before the service runs whenever F holds any other field, and
ADMIN or OWNER callers always proceed to the service unrestricted by this
check. -/
theorem C3_viewer_field_policy (tasks : List Task) (id : Nat) (dto : UpdateTaskDto) :
    ((∀ k ∈ updateKeysNonSystem dto, k = "status") →
      tasksControllerUpdate (some .VIEWER) id dto tasks = tasksServiceUpdate tasks id dto) ∧
    ((∃ k ∈ updateKeysNonSystem dto, k ≠ "status") →
      tasksControllerUpdate (some .VIEWER) id dto tasks = .error .Forbidden) ∧
    (∀ r : OrganizationRole, r ≠ .VIEWER →
      tasksControllerUpdate (some r) id dto tasks = tasksServiceUpdate tasks id dto) := by
  refine ⟨?_, ?_, ?_⟩
  · intro hsub
    have h : viewerDisallowed dto = false := (viewerDisallowed_eq_false dto).2 hsub
    simp [tasksControllerUpdate, h]
  · intro hex
    have h : viewerDisallowed dto = true := (viewerDisallowed_eq_true dto).2 hex
    simp [tasksControllerUpdate, h]
  · intro r hr
    cases r with
    | VIEWER => exact absurd rfl hr
    | OWNER => simp [tasksControllerUpdate]
    | ADMIN => simp [tasksControllerUpdate]

/-- Witness for C3 at the inputs of the spec scenario: a VIEWER payload of
status DONE alone proceeds to the service; status DONE plus a title is
rejected Forbidden; a title alone is rejected Forbidden; the same
title-bearing payload from an ADMIN proceeds to the service. -/
theorem C3_viewer_field_policy_witness :
    tasksControllerUpdate (some .VIEWER) 5 { status := some .DONE } [sampleLiveTask] =
      tasksServiceUpdate [sampleLiveTask] 5 { status := some .DONE } ∧
    tasksControllerUpdate (some .VIEWER) 5
      { status := some .DONE, title := some "x" } [sampleLiveTask] = .error .Forbidden ∧
    tasksControllerUpdate (some .VIEWER) 5 { title := some "x" } [sampleLiveTask] =
      .error .Forbidden ∧
    tasksControllerUpdate (some .ADMIN) 5
      { status := some .DONE, title := some "x" } [sampleLiveTask] =
      tasksServiceUpdate [sampleLiveTask] 5 { status := some .DONE, title := some "x" } := by
  refine ⟨(C3_viewer_field_policy [sampleLiveTask] 5 _).1 (by decide), ?_, ?_, ?_⟩
  · exact (C3_viewer_field_policy [sampleLiveTask] 5 _).2.1
      ⟨"title", by decide, by decide⟩
  · exact (C3_viewer_field_policy [sampleLiveTask] 5 _).2.1
      ⟨"title", by decide, by decide⟩
  · exact (C3_viewer_field_policy [sampleLiveTask] 5 _).2.2 .ADMIN (by decide)

/-- Claim C9: a task update writes only the six user fields: for every
payload the updated row keeps the organizationId, id and createdAt of the
stored row, and the service outcome is independent of the organizationId
carried by the payload, so the guard-injected organization id is never
copied onto the task. -/
theorem C9_update_frame (tasks : List Task) (id : Nat) (dto : UpdateTaskDto) :
    (∀ t : Task, (applyUpdate t dto).organizationId = t.organizationId ∧
      (applyUpdate t dto).id = t.id ∧ (applyUpdate t dto).createdAt = t.createdAt) ∧
    (∀ st t2, tasksServiceUpdate tasks id dto = .ok (st, t2) →
      ∃ t, findById tasks id = some t ∧ t2.organizationId = t.organizationId ∧
        t2.id = t.id ∧ t2.createdAt = t.createdAt) ∧
    (∀ x, tasksServiceUpdate tasks id { dto with organizationId := x } =
      tasksServiceUpdate tasks id dto) := by
  refine ⟨fun t => ⟨rfl, rfl, rfl⟩, ?_, fun x => rfl⟩
  intro st t2 h
  cases hf : findById tasks id with
  | none => simp [tasksServiceUpdate, hf] at h
  | some t =>
    refine ⟨t, rfl, ?_⟩
    simp only [tasksServiceUpdate, hf] at h
    cases h
    exact ⟨rfl, rfl, rfl⟩

/-- Witness for C9 at a concrete input: updating the stored task with a
payload that changes the title and carries organizationId 4 leaves the task
in organization 9 with its id and creation stamp intact. -/
theorem C9_update_frame_witness :
    ∃ t, findById [sampleLiveTask] 5 = some t ∧
      ({ sampleLiveTask with title := "x" } : Task).organizationId = t.organizationId ∧
      ({ sampleLiveTask with title := "x" } : Task).id = t.id ∧
      ({ sampleLiveTask with title := "x" } : Task).createdAt = t.createdAt := by
  exact (C9_update_frame [sampleLiveTask] 5
    { title := some "x", organizationId := some 4 }).2.1
    (taskSave [sampleLiveTask] { sampleLiveTask with title := "x" })
    { sampleLiveTask with title := "x" } (by decide)

/-- Claim C4: an invitation authored by a VIEWER is always rejected with
Forbidden; an ADMIN requesting role OWNER is rejected with Forbidden; an
OWNER may request any role, and when the target organization exists and
neither an existing membership nor a pending invitation conflicts, a pending
invitation carrying the requested role is produced. -/
theorem C4_invitation_role_gate (dto : CreateInvitationDto) (inviterId : Nat)
    (orgs : List Organization) (users : List User) (ms : List UserOrganization)
    (invitations : List Invitation) (newId : Nat) (token : String) (now : Nat) :
    createInvitation dto inviterId .VIEWER orgs users ms invitations newId token now =
      .error .Forbidden ∧
    (dto.role = .OWNER →
      createInvitation dto inviterId .ADMIN orgs users ms invitations newId token now =
        .error .Forbidden) ∧
    ((orgs.find? (fun o => o.id == dto.organizationId)).isSome →
      (∀ u, users.find? (fun u2 => u2.email == dto.email) = some u →
        membershipFind ms u.id dto.organizationId = none) →
      invitations.find? (fun i =>
        i.email == dto.email && i.organizationId == dto.organizationId &&
        i.status == InvitationStatus.PENDING) = none →
      ∃ inv, createInvitation dto inviterId .OWNER orgs users ms invitations
          newId token now = .ok inv ∧ inv.status = .PENDING ∧ inv.role = dto.role) := by
  refine ⟨rfl, ?_, ?_⟩
  · intro h
    simp [createInvitation, h]
  · intro horg hmem hinv
    cases ho : orgs.find? (fun o => o.id == dto.organizationId) with
    | none => rw [ho] at horg; simp at horg
    | some o =>
      refine ⟨{ id := newId, email := dto.email, token := token, role := dto.role,
                status := .PENDING, organizationId := dto.organizationId,
                invitedById := inviterId, expiresAt := now + 7 }, ?_, rfl, rfl⟩
      cases hu : users.find? (fun u2 => u2.email == dto.email) with
      | none => simp [createInvitation, ho, hu, hinv]
      | some u => simp [createInvitation, ho, hu, hmem u hu, hinv]

/-- Witness for C4 at concrete inputs: in a store holding organization 4 and
no users, memberships or invitations, a VIEWER-authored invitation and an
ADMIN-authored invitation requesting OWNER are both rejected Forbidden, and
the OWNER-authored request for role OWNER produces a pending invitation with
role OWNER. -/
theorem C4_invitation_role_gate_witness :
    createInvitation { email := "n@test.com", role := .OWNER, organizationId := 4 }
      1 .VIEWER [{ id := 4, name := "Org", parentId := none }] [] [] [] 7 "tk" 0 =
      .error .Forbidden ∧
    createInvitation { email := "n@test.com", role := .OWNER, organizationId := 4 }
      1 .ADMIN [{ id := 4, name := "Org", parentId := none }] [] [] [] 7 "tk" 0 =
      .error .Forbidden ∧
    ∃ inv, createInvitation { email := "n@test.com", role := .OWNER, organizationId := 4 }
        1 .OWNER [{ id := 4, name := "Org", parentId := none }] [] [] [] 7 "tk" 0 =
        .ok inv ∧ inv.status = .PENDING ∧ inv.role = .OWNER := by
  have h := C4_invitation_role_gate
    { email := "n@test.com", role := .OWNER, organizationId := 4 }
    1 [{ id := 4, name := "Org", parentId := none }] [] [] [] 7 "tk" 0
  exact ⟨h.1, h.2.1 rfl, h.2.2 (by decide) (by intro u hu; cases hu) rfl⟩

/-- Claim C5 (behaviour the code actually has): the revoke and resend routes
apply only JwtAuthGuard, so request.userOrgRole is never populated and the
service receives an undefined role; the explicit-set check then fails for
every caller, and a pending revoke (or non-accepted resend) is rejected with
Forbidden no matter which role the caller actually holds in the membership
store — in particular an OWNER of the invitation's organization cannot
revoke, contradicting the claim and the route's own documentation. -/
theorem C5_revoke_resend_guard_gap (invitations : List Invitation)
    (ms : List UserOrganization) (callerId invitationId : Nat)
    (newToken : String) (now : Nat) :
    (∀ inv, invitations.find? (fun i => i.id == invitationId) = some inv →
      inv.status = .PENDING →
      revokeInvitationRoute invitations ms callerId invitationId = .error .Forbidden) ∧
    (∀ inv, invitations.find? (fun i => i.id == invitationId) = some inv →
      inv.status ≠ .ACCEPTED →
      resendInvitationRoute invitations ms callerId invitationId newToken now =
        .error .Forbidden) := by
  constructor
  · intro inv hf hs
    simp [revokeInvitationRoute, revokeInvitation, hf, hs, roleIn]
  · intro inv hf hs
    simp [resendInvitationRoute, resendInvitation, hf, hs, roleIn]

/-- Witness for C5 at the failing input: caller 1 is OWNER of organization 4,
the invitation into organization 4 is pending, and the revoke and resend
routes both reject the caller with Forbidden. -/
theorem C5_revoke_resend_guard_gap_witness :
    revokeInvitationRoute [samplePendingInvitation] [sampleMembershipOrg4] 1 2 =
      .error .Forbidden ∧
    resendInvitationRoute [samplePendingInvitation] [sampleMembershipOrg4] 1 2 "t2" 0 =
      .error .Forbidden := by
  have h := C5_revoke_resend_guard_gap [samplePendingInvitation]
    [sampleMembershipOrg4] 1 2 "t2" 0
  exact ⟨h.1 samplePendingInvitation (by decide) rfl,
    h.2 samplePendingInvitation (by decide) (by decide)⟩

/-- Claim C10: revoking an invitation that exists with a non-pending status
yields BadRequest for every caller role, the status check preceding the role
check, while a pending invitation revoked by a caller outside the OWNER and
ADMIN set yields Forbidden — so such callers can tell a non-pending
invitation from a pending one.  A BadRequest is raised before any save, so
the invitation rows are unchanged. -/
theorem C10_revoke_pending_check_first (invitations : List Invitation)
    (invitationId userId : Nat) (userRole : Option OrganizationRole) :
    (∀ inv, invitations.find? (fun i => i.id == invitationId) = some inv →
      inv.status ≠ .PENDING →
      revokeInvitation invitations invitationId userId userRole = .error .BadRequest) ∧
    (∀ inv, invitations.find? (fun i => i.id == invitationId) = some inv →
      inv.status = .PENDING → roleIn [.OWNER, .ADMIN] userRole = false →
      revokeInvitation invitations invitationId userId userRole = .error .Forbidden) := by
  constructor
  · intro inv hf hs
    simp [revokeInvitation, hf, hs]
  · intro inv hf hs hr
    simp [revokeInvitation, hf, hs, hr]

/-- Witness for C10 at concrete inputs: a VIEWER caller revoking the revoked
invitation gets BadRequest, and revoking the pending one gets Forbidden. -/
theorem C10_revoke_pending_check_first_witness :
    revokeInvitation [sampleRevokedInvitation] 3 1 (some .VIEWER) =
      .error .BadRequest ∧
    revokeInvitation [samplePendingInvitation] 2 1 (some .VIEWER) =
      .error .Forbidden := by
  exact ⟨(C10_revoke_pending_check_first [sampleRevokedInvitation] 3 1
      (some .VIEWER)).1 sampleRevokedInvitation (by decide) (by decide),
    (C10_revoke_pending_check_first [samplePendingInvitation] 2 1
      (some .VIEWER)).2 samplePendingInvitation (by decide) rfl (by decide)⟩

/-- Counterexample to claim C6 as stated: on the organization-detail route —
an organization-scoped route — a caller with a valid identity and no
membership row is rejected with NotFound, not Forbidden, so the two failure
causes are not surfaced identically across every organization-scoped route. -/
theorem C6_counterexample :
    orgFindOne [] [sampleOrg] 4 1 = .error .NotFound ∧
    HttpError.NotFound ≠ HttpError.Forbidden := by
  exact ⟨rfl, by decide⟩

/-- Claim C6 as amended: on the guard-checked organization-scoped routes a
missing membership is rejected with Forbidden — never Unauthorized — exactly
like an insufficient role; but the organization detail and update routes of
OrganizationsService reject a missing membership with NotFound, and on the
update route a member whose role is VIEWER receives Forbidden, so there the
two causes are distinguishable. -/
theorem C6_membership_absent (ms : List UserOrganization)
    (orgs : List Organization) (userId orgId : Nat) (dtoName : Option String) :
    (∀ rq : RoleRequirement, orgRolesCheck rq none = .error .Forbidden) ∧
    (∀ m r, satisfies r m = false →
      orgRolesCheck (.Minimum m) (some r) = .error .Forbidden) ∧
    (membershipFind ms userId orgId = none →
      orgFindOne ms orgs orgId userId = .error .NotFound ∧
      orgUpdate ms orgs orgId dtoName userId = .error .NotFound) ∧
    (∀ m, membershipFind ms userId orgId = some m → m.role = .VIEWER →
      orgUpdate ms orgs orgId dtoName userId = .error .Forbidden) := by
  refine ⟨fun rq => rfl, ?_, ?_, ?_⟩
  · intro m r h
    simp [orgRolesCheck, h]
  · intro h
    exact ⟨by simp [orgFindOne, h], by simp [orgUpdate, h]⟩
  · intro m hm hr
    simp [orgUpdate, hm, hr]

/-- Witness for C6 at concrete inputs: the guard rejects a missing membership
with Forbidden on an ADMIN-minimum route; both organization service routes
reject non-member user 1 with NotFound; and VIEWER member user 2 gets
Forbidden from the update route. -/
theorem C6_membership_absent_witness :
    orgRolesCheck (.Minimum .ADMIN) none = .error .Forbidden ∧
    orgFindOne [sampleViewerMembership] [sampleOrg] 4 1 = .error .NotFound ∧
    orgUpdate [sampleViewerMembership] [sampleOrg] 4 (some "N") 1 = .error .NotFound ∧
    orgUpdate [sampleViewerMembership] [sampleOrg] 4 (some "N") 2 = .error .Forbidden := by
  have h1 := C6_membership_absent [sampleViewerMembership] [sampleOrg] 1 4 (some "N")
  have h2 := C6_membership_absent [sampleViewerMembership] [sampleOrg] 2 4 (some "N")
  exact ⟨h1.1 (.Minimum .ADMIN), (h1.2.2.1 (by decide)).1, (h1.2.2.1 (by decide)).2,
    h2.2.2.2 sampleViewerMembership (by decide) rfl⟩

/-- Counterexample to claim C7 as stated: the two saves of
OrganizationsService.create are not wrapped in a transaction, so when the
membership save fails after the organization save, the resulting state holds
the new organization with zero membership rows — an organization with zero
OWNER members. -/
theorem C7_counterexample :
    (orgsCreate { orgs := [], memberships := [] } "Org" none 1 10 0 false).1.orgs =
      [{ id := 10, name := "Org", parentId := none }] ∧
    (orgsCreate { orgs := [], memberships := [] } "Org" none 1 10 0 false).1.memberships
      = [] ∧
    (orgsCreate { orgs := [], memberships := [] } "Org" none 1 10 0 false).2 =
      .error .Internal := by
  exact ⟨rfl, rfl, rfl⟩

/-- Claim C7 as amended: creating an organization saves the organization row
and then the creator's OWNER membership row in sequence, without a
transaction.  When both saves succeed and the organization id is fresh, the
creator holds exactly one membership row in the new organization and its role
is OWNER; but when the membership save fails after the organization save, the
organization row persists with zero membership rows. -/
theorem C7_create_owner_membership (st : OrgState) (name : String)
    (userId newOrgId newMemId : Nat)
    (fresh : ∀ m ∈ st.memberships, m.organizationId ≠ newOrgId) :
    ((orgsCreate st name none userId newOrgId newMemId true).2 =
      .ok { id := newOrgId, name := name, parentId := none } ∧
      (orgsCreate st name none userId newOrgId newMemId true).1.memberships.filter
        (fun m => m.organizationId == newOrgId) =
        [{ id := newMemId, userId := userId, organizationId := newOrgId,
           role := .OWNER }]) ∧
    ((orgsCreate st name none userId newOrgId newMemId false).1.orgs =
      st.orgs ++ [{ id := newOrgId, name := name, parentId := none }] ∧
      (orgsCreate st name none userId newOrgId newMemId false).1.memberships.filter
        (fun m => m.organizationId == newOrgId) = []) := by
  have hfilter : st.memberships.filter (fun m => m.organizationId == newOrgId) = [] := by
    rw [List.filter_eq_nil_iff]
    intro m hm
    simp [fresh m hm]
  have hany : st.memberships.any
      (fun m => m.userId == userId && m.organizationId == newOrgId) = false := by
    rw [List.any_eq_false]
    intro m hm
    simp [fresh m hm]
  refine ⟨⟨?_, ?_⟩, ?_, ?_⟩
  · simp [orgsCreate, orgsCreateSave, userOrgInsert, hany]
  · simp [orgsCreate, orgsCreateSave, userOrgInsert, hany, List.filter_append, hfilter]
  · simp [orgsCreate, orgsCreateSave]
  · simp [orgsCreate, orgsCreateSave, hfilter]

/-- Witness for C7 at concrete inputs: starting from the empty store, a
successful creation by user 1 of organization 10 leaves exactly the one
OWNER membership row for user 1. -/
theorem C7_create_owner_membership_witness :
    (orgsCreate { orgs := [], memberships := [] } "Org" none 1 10 0 true).2 =
      .ok { id := 10, name := "Org", parentId := none } ∧
    (orgsCreate { orgs := [], memberships := [] } "Org" none 1 10 0 true).1.memberships.filter
      (fun m => m.organizationId == 10) =
      [{ id := 0, userId := 1, organizationId := 10, role := .OWNER }] := by
  exact (C7_create_owner_membership { orgs := [], memberships := [] } "Org" 1 10 0
    (by intro m hm; cases hm)).1

/-- Helper: appending a membership row whose (userId, organizationId) pair
occurs nowhere in the store preserves pair uniqueness. -/
theorem pairUnique_append (ms : List UserOrganization) (row : UserOrganization)
    (h : ∀ m ∈ ms, (m.userId == row.userId && m.organizationId == row.organizationId) = false)
    (hu : pairUnique ms) : pairUnique (ms ++ [row]) := by
  rw [pairUnique, List.pairwise_append]
  refine ⟨hu, List.pairwise_singleton _ _, ?_⟩
  intro a ha b hb
  simp only [List.mem_singleton] at hb
  subst hb
  intro hc
  have hfalse := h a ha
  simp [hc.1, hc.2] at hfalse

/-- Helper: a successful constrained insert preserves pair uniqueness. -/
theorem userOrgInsert_pairUnique (ms ms2 : List UserOrganization)
    (row : UserOrganization) (h : userOrgInsert ms row = some ms2)
    (hu : pairUnique ms) : pairUnique ms2 := by
  unfold userOrgInsert at h
  split at h
  · cases h
  · next hany =>
    cases h
    refine pairUnique_append ms row ?_ hu
    intro m hm
    rw [Bool.not_eq_true] at hany
    rw [List.any_eq_false] at hany
    simpa using hany m hm

/-- Helper: the guarded membership step of invitation acceptance preserves
pair uniqueness: it inserts only when the lookup found no row for the pair. -/
theorem acceptMembershipStep_pairUnique (ms : List UserOrganization)
    (userId orgId newMemId : Nat) (role : OrganizationRole)
    (hu : pairUnique ms) :
    pairUnique (acceptMembershipStep ms userId orgId newMemId role) := by
  unfold acceptMembershipStep
  cases hfind : membershipFind ms userId orgId with
  | some m => exact hu
  | none =>
    refine pairUnique_append _ _ ?_ hu
    intro m hm
    unfold membershipFind at hfind
    rw [List.find?_eq_none] at hfind
    simpa using hfind m hm

/-- Helper: the save phase of organization creation preserves pair
uniqueness in every branch. -/
theorem orgsCreateSave_pairUnique (st : OrgState) (name : String)
    (parentId : Option Nat) (userId newOrgId newMemId : Nat) (memSaveOk : Bool)
    (hu : pairUnique st.memberships) :
    pairUnique (orgsCreateSave st name parentId userId newOrgId newMemId
      memSaveOk).1.memberships := by
  unfold orgsCreateSave
  cases memSaveOk with
  | false => exact hu
  | true =>
    dsimp only
    cases hins : userOrgInsert st.memberships
        { id := newMemId, userId := userId, organizationId := newOrgId,
          role := .OWNER } with
    | none => exact hu
    | some ms2 => exact userOrgInsert_pairUnique st.memberships ms2 _ hins hu

/-- Claim C8: at most one membership row per (user, organization) pair is an
invariant preserved by both creation paths — organization creation keeps the
store pair-unique in every branch, invitation acceptance keeps it
pair-unique in every branch, a direct second insert for an existing pair is
rejected by the unique constraint, and a second acceptance for an existing
pair leaves the membership store unchanged (a no-op). -/
theorem C8_membership_uniqueness (st : OrgState) (ast : AcceptState)
    (name token : String) (parentId : Option Nat)
    (userId newOrgId newMemId newUserId amemId now : Nat) (memSaveOk : Bool) :
    (pairUnique st.memberships →
      pairUnique (orgsCreate st name parentId userId newOrgId newMemId
        memSaveOk).1.memberships) ∧
    (pairUnique ast.memberships →
      pairUnique (acceptInvitation ast token now newUserId amemId).1.memberships) ∧
    (∀ ms row, (membershipFind ms row.userId row.organizationId).isSome →
      userOrgInsert ms row = none) ∧
    (∀ ms u orgId r, (membershipFind ms u orgId).isSome →
      acceptMembershipStep ms u orgId amemId r = ms) := by
  refine ⟨?_, ?_, ?_, ?_⟩
  · intro hu
    unfold orgsCreate
    cases parentId with
    | none =>
      exact orgsCreateSave_pairUnique st name none userId newOrgId newMemId
        memSaveOk hu
    | some pid =>
      dsimp only
      cases hp : st.orgs.find? (fun o => o.id == pid) with
      | none => exact hu
      | some o =>
        cases hm : membershipFind st.memberships userId pid with
        | none => exact hu
        | some m =>
          dsimp only
          split
          · exact hu
          · exact orgsCreateSave_pairUnique st name (some pid) userId newOrgId
              newMemId memSaveOk hu
  · intro hu
    unfold acceptInvitation
    cases hf : ast.invitations.find? (fun i => i.token == token) with
    | none => exact hu
    | some inv =>
      dsimp only
      split
      · exact hu
      · split
        · exact hu
        · exact acceptMembershipStep_pairUnique _ _ _ _ _ hu
  · intro ms row hs
    unfold userOrgInsert
    rw [if_pos]
    unfold membershipFind at hs
    rw [Option.isSome_iff_exists] at hs
    obtain ⟨m, hm⟩ := hs
    have hmem := List.mem_of_find?_eq_some hm
    have hpred := List.find?_some hm
    rw [List.any_eq_true]
    exact ⟨m, hmem, hpred⟩
  · intro ms u orgId r hs
    unfold acceptMembershipStep
    rw [Option.isSome_iff_exists] at hs
    obtain ⟨m, hm⟩ := hs
    rw [hm]

/-- Witness for C8 at concrete inputs: the stores of the running fixtures are
pair-unique after a fresh creation and after an acceptance, the constrained
insert rejects a duplicate of the OWNER row of organization 4, and a second
membership step for that pair is a no-op. -/
theorem C8_membership_uniqueness_witness :
    pairUnique (orgsCreate { orgs := [], memberships := [] } "Org" none 1 10 0
      true).1.memberships ∧
    pairUnique (acceptInvitation
      { users := [], memberships := [sampleMembershipOrg4],
        invitations := [samplePendingInvitation] } "tok" 0 8 9).1.memberships ∧
    userOrgInsert [sampleMembershipOrg4]
      { id := 9, userId := 1, organizationId := 4, role := .VIEWER } = none ∧
    acceptMembershipStep [sampleMembershipOrg4] 1 4 9 .VIEWER =
      [sampleMembershipOrg4] := by
  have h := C8_membership_uniqueness { orgs := [], memberships := [] }
    { users := [], memberships := [sampleMembershipOrg4],
      invitations := [samplePendingInvitation] }
    "Org" "tok" none 1 10 0 8 9 0 true
  refine ⟨h.1 (List.Pairwise.nil), h.2.1 ?_, ?_, ?_⟩
  · exact List.pairwise_singleton _ _
  · exact h.2.2.1 [sampleMembershipOrg4]
      { id := 9, userId := 1, organizationId := 4, role := .VIEWER } (by decide)
  · exact h.2.2.2 [sampleMembershipOrg4] 1 4 .VIEWER (by decide)

end TaskManager
